import Mathlib

/-!
Shallow embedding of the Logistics-Agent repository (controller.py,
sa_monitor.py, streamlit.py, streamlit_app.py) and proofs about the
claims of its specification.

External effects are made explicit: an HTTP request together with the
subsequent parse of its body is modelled as a value of type
`Except String (Except String α)` — the outer layer is the outcome of
contacting the server (`requests.get` + `raise_for_status`), the inner
layer is the outcome of parsing the received body (XML / JSON decoding).
LLM chains are modelled as function parameters, dates as integers
(day numbers).
-/

/-- Model of the Python substring test `needle in hay` restricted to a
check that `needle` occurs at the head of `hay`. -/
def listStarts : List Char → List Char → Bool
  | _, [] => true
  | [], _ :: _ => false
  | a :: as, b :: bs => a == b && listStarts as bs

/-- Model of the Python substring test `needle in hay` on character lists:
true iff `needle` occurs contiguously somewhere in `hay`. -/
def listHasSub : List Char → List Char → Bool
  | [], needle => needle.isEmpty
  | a :: rest, needle => listStarts (a :: rest) needle || listHasSub rest needle

/-- Model of the Python substring test `needle in hay` on strings. -/
def strContains (hay needle : String) : Bool :=
  listHasSub hay.toList needle.toList

/-- Model of Python `s.lower()` (character-wise lowering). -/
def pyLower (s : String) : String :=
  String.mk (s.toList.map Char.toLower)

/-- Model of Python `s.upper()` (character-wise raising). -/
def pyUpper (s : String) : String :=
  String.mk (s.toList.map Char.toUpper)

/-- Model of the Python slice `s[:n]` (first `n` characters). -/
def pyTake (s : String) (n : Nat) : String :=
  String.mk (s.toList.take n)

/-- Model of Python `o or d` where `o` is an optional string: `None` and
the empty string are falsy and yield the default `d`. -/
def pyOr (o : Option String) (d : String) : String :=
  match o with
  | none => d
  | some s => if s.isEmpty then d else s

/-- Model of Python `s or d` on strings: the empty string is falsy. -/
def pyOrStr (s d : String) : String :=
  if s.isEmpty then d else s

/-- Model of a Python f-string interpolation of an optional value:
`None` prints as the literal text "None". -/
def pyStr (o : Option String) : String :=
  match o with
  | none => "None"
  | some s => s

/-- Model of Python truthiness of an optional string (used in
comprehension guards such as `if r.get("title")`). -/
def truthyOpt (o : Option String) : Bool :=
  match o with
  | none => false
  | some s => !s.isEmpty

/-- Model of Python `s.strip()`: remove leading and trailing
whitespace. -/
def pyStrip (s : String) : String :=
  String.mk (((s.toList.dropWhile Char.isWhitespace).reverse.dropWhile
    Char.isWhitespace).reverse)

/-- A NewsData article row as consumed by the `fetch_newsdata` variants of
sa_monitor.py, streamlit.py and streamlit_app.py (only `title` and
`description` are read there). -/
structure NewsRow where
  title : Option String
  description : Option String

/-- Input record of the controller's holiday prompt template. -/
structure HolidayIn where
  country_name : String
  country_code : String
  date_start : String
  date_end : String
  known_holidays : String

/-- Input record of the disaster prompt templates. -/
structure DisasterIn where
  events : String
  country_name : String
  date_display : String

/-- Input record of the controller's summary prompt template. -/
structure SummaryIn where
  processed_input : String
  country_name : String
  date_display : String

/-- The external data sources the repository can contact. -/
inductive Source where
  | nagerHolidays
  | gdacsRss
  | newsdata
  | tavily
deriving DecidableEq

namespace Controller

/-- A row of the Nager public-holiday JSON response (controller.py
`fetch_holidays` reads the `date` and `name` keys). -/
structure Holiday where
  date : Option String
  name : Option String

/-- An item of the GDACS RSS feed as read by controller.py
`fetch_gdacs_rss`: the plain fields plus the result of
`datetime.strptime(fromdate_str[:16], "%a, %d %b %Y %H:%M")`, modelled as
an optional day number (`none` when the date string does not parse). -/
structure RssItem where
  title : String
  country : String
  fromdate : String
  fromdateParsed : Option Int
  alertlevel : String
  eventtype : String
  description : String
  link : String

/-- A row of the NewsData JSON response as read by controller.py
`fetch_newsdata`. -/
structure Article where
  title : Option String
  description : Option String
  pubDate : Option String
  source_id : Option String
  link : Option String

/-- controller.py lines 84-91: expand single-day queries by seven days on
each side; a genuine range is returned unchanged. -/
def expand (from_date to_date : Int) : Int × Int :=
  if from_date = to_date then (from_date - 7, to_date + 7) else (from_date, to_date)

/-- controller.py line 121: an item matches the country when some
lowercase name term occurs in the lowered `title + " " + country`. -/
def countryMatch (terms : List String) (it : RssItem) : Bool :=
  terms.any fun t => strContains (pyLower (it.title ++ " " ++ it.country)) t

/-- controller.py lines 125-131: keep the item when its `gdacs:fromdate`
parses to a date inside the (already expanded) interval, or when the
date does not parse at all. -/
def dateOk (fd td : Int) (it : RssItem) : Bool :=
  match it.fromdateParsed with
  | some d => decide (fd ≤ d ∧ d ≤ td)
  | none => true

/-- controller.py lines 133-138: the event string built for a matched
GDACS item. -/
def renderGdacs (it : RssItem) : String :=
  "SOURCE:GDACS | ALERT:" ++ pyUpper it.alertlevel ++ " | TYPE:" ++ pyUpper it.eventtype
    ++ " | " ++ it.title
    ++ "\n  Date: " ++ it.fromdate ++ " | Country: " ++ it.country
    ++ "\n  Details: " ++ pyTake it.description 200
    ++ "\n  Link: " ++ it.link

/-- controller.py lines 97-141. The try block covers only the HTTP call,
so a contact failure (outer `.error`) is caught and yields `[]`, while
`ET.fromstring(r.content)` on line 109 runs outside any try: a parse
failure (inner `.error`) propagates as an exception. -/
def fetch_gdacs_rss (terms : List String) (from_date to_date : Int)
    (resp : Except String (Except String (List RssItem))) :
    Except String (List String) :=
  let p := expand from_date to_date
  match resp with
  | .error _ => .ok []
  | .ok (.error e) => .error e
  | .ok (.ok items) =>
      .ok ((items.filter fun it => countryMatch terms it && dateOk p.1 p.2 it).map renderGdacs)

/-- controller.py lines 176-188: the event string built for a NewsData
article (`or` defaults follow Python truthiness). -/
def renderNews (a : Article) : String :=
  "SOURCE:NEWSDATA | ALERT:NEWS | TYPE:NEWS | " ++ pyOr a.title "No title"
    ++ "\n  Date: " ++ pyTake (pyOr a.pubDate "") 10 ++ " | Source: " ++ pyOr a.source_id "unknown"
    ++ "\n  Details: " ++ pyTake (pyOr a.description "") 200
    ++ "\n  Link: " ++ pyOr a.link ""

/-- controller.py lines 145-191. The try block covers only the HTTP call,
so a contact failure yields `[]`, while `r.json()` on line 171 runs
outside the try: a JSON decode failure propagates as an exception. -/
def fetch_newsdata (resp : Except String (Except String (List Article))) :
    Except String (List String) :=
  match resp with
  | .error _ => .ok []
  | .ok (.error e) => .error e
  | .ok (.ok results) => .ok (results.map renderNews)

/-- controller.py lines 195-206. Here the try block covers the HTTP call,
`r.json()` and the comprehension, so both contact and parse failures are
caught and yield `[]`. -/
def fetch_holidays (resp : Except String (Except String (List Holiday))) : List String :=
  match resp with
  | .error _ => []
  | .ok (.error _) => []
  | .ok (.ok hs) =>
      (hs.filter fun h => truthyOpt h.date && truthyOpt h.name).map
        fun h => h.date.getD "" ++ " | " ++ h.name.getD ""

/-- The ambient effects of one controller run: the three LLM chains, the
date-to-string rendering, and the three HTTP interactions. -/
structure Env where
  holiday_chain : HolidayIn → String
  disaster_chain : DisasterIn → String
  summary_chain : SummaryIn → String
  dateStr : Int → String
  holidaysResp : Except String (Except String (List Holiday))
  gdacsResp : Except String (Except String (List RssItem))
  newsResp : Except String (Except String (List Article))

/-- controller.py lines 246-252: the disruption text fed to the disaster
chain is the blank-line join of the GDACS events followed by the NewsData
events; with no events at all the fixed marker is used instead. -/
def disaster_output (chain : DisasterIn → String) (country_name date_display : String)
    (g n : List String) : String :=
  let all_events := g ++ n
  if all_events.isEmpty then "NO_DISRUPTION_EVENTS"
  else chain ⟨String.intercalate "\n\n" all_events, country_name, date_display⟩

/-- controller.py lines 210-261, `run_logistics_check`. `singleDate`
models `date_mode == "Single date"`; `base_date` is the parse of
`from_date_str` (line 225); the result is `Except` because an uncaught
parse failure inside `fetch_gdacs_rss` or `fetch_newsdata` propagates out
of the run. -/
def run_logistics_check (env : Env)
    (country_name country_code from_date_str date_display : String)
    (singleDate : Bool) (selected_date start_date end_date base_date today : Int)
    (terms : List String) : Except String String :=
  let period_future := (if singleDate then selected_date else start_date) > today
  let holiday_list := fetch_holidays env.holidaysResp
  let holiday_text := pyOrStr (String.intercalate "\n" holiday_list) "NO_PUBLIC_HOLIDAYS"
  let lookahead := env.dateStr (base_date + 7)
  let holiday_output := env.holiday_chain
    ⟨country_name, pyUpper country_code, from_date_str, lookahead, holiday_text⟩
  if period_future then .ok (pyStrip holiday_output)
  else
    let fd := if singleDate then selected_date else start_date
    let td := if singleDate then selected_date else end_date
    match fetch_gdacs_rss terms fd td env.gdacsResp with
    | .error e => .error e
    | .ok g =>
        match fetch_newsdata env.newsResp with
        | .error e => .error e
        | .ok n =>
            let d_out := disaster_output env.disaster_chain country_name date_display g n
            .ok (pyStrip (env.summary_chain
              ⟨"=== HOLIDAYS ===\n" ++ holiday_output ++ "\n\n=== DISRUPTIONS ===\n" ++ d_out,
               country_name, date_display⟩))

/-- Modelled from the call structure of `run_logistics_check` in
controller.py: `fetch_holidays` is called unconditionally (line 223); on
the past-or-present path `fetch_gdacs_rss` and `fetch_newsdata` are then
called (line 243); controller.py contains no Tavily client and no call to
any web-search API. -/
def sourcesQueried (future : Bool) : List Source :=
  if future then [Source.nagerHolidays]
  else [Source.nagerHolidays, Source.gdacsRss, Source.newsdata]

end Controller

namespace SaMonitor

/-- sa_monitor.py lines 90-108, `fetch_newsdata`. The whole body sits in
one try, so both contact and parse failures are caught and yield `[]`;
rows without a truthy title are dropped and each kept row becomes
`f"{title} - {description}"`. -/
def fetch_newsdata (resp : Except String (Except String (List NewsRow))) : List String :=
  match resp with
  | .error _ => []
  | .ok (.error _) => []
  | .ok (.ok rs) =>
      (rs.filter fun r => truthyOpt r.title).map
        fun r => pyStr r.title ++ " - " ++ pyStr r.description

/-- sa_monitor.py lines 111-121, `fetch_tavily`: a caught failure yields
`[]`; otherwise each result contributes its `content` field, defaulting
to the empty string. -/
def fetch_tavily (resp : Except String (List (Option String))) : List String :=
  match resp with
  | .error _ => []
  | .ok rs => rs.map fun o => o.getD ""

/-- sa_monitor.py line 129: `list(set(tavily_event + newsdata_articles))`,
modelled as duplicate erasure over the concatenation. -/
def all_headlines (tavily_event newsdata_articles : List String) : List String :=
  (tavily_event ++ newsdata_articles).eraseDups

/-- Modelled from the source text of sa_monitor.py: line 142 invokes
`chain.run(...)`, but no name `chain` is bound anywhere in the module
(only `gather_chain` and `summary_chain` are defined), so the lookup
fails and the call raises `NameError`, caught by the except on line 144. -/
def chainBinding : Option (String → String) := none

/-- sa_monitor.py lines 125-145, `get_new_headlines`, modelled as the
list of lines printed to the console. `dateLine` stands for the printed
`f"Date: {datetime.now()}"` line. -/
def get_new_headlines (newsResp : Except String (Except String (List NewsRow)))
    (tavilyResp : Except String (List (Option String))) (dateLine : String) : List String :=
  let merged := all_headlines (fetch_tavily tavilyResp) (fetch_newsdata newsResp)
  let header := ["==============================", "ENTERPRISE LOGISTICS ALERT",
                 "Region: South Africa", dateLine, "=============================="]
  header ++ (
    if merged.isEmpty then ["No logistics-impacting events detected today."]
    else match chainBinding with
      | none => ["Analysis failed: NameError: name chain is not defined"]
      | some c => [c (String.intercalate "\n" merged)])

end SaMonitor

namespace StreamlitMon

/-- streamlit.py lines 60-64: the keyword list gating the report. -/
def ACTIVE_KEYWORDS : List String :=
  ["border closed", "port closed", "strike ongoing", "road blocked",
   "shipment delayed", "warehouse fire", "customs backlog",
   "transport disruption", "freight delay", "package delay"]

/-- streamlit.py line 69: an event is active when some keyword occurs,
case-insensitively, in its text. -/
def matchesActive (e : String) : Bool :=
  ACTIVE_KEYWORDS.any fun k => strContains (pyLower e) (pyLower k)

/-- streamlit.py lines 66-71, `filter_active_events`: the append loop is
a filter by `matchesActive`. -/
def filter_active_events (events : List String) : List String :=
  events.filter matchesActive

/-- streamlit.py lines 76-96, `fetch_newsdata` (same row shape as the
sa_monitor variant; the whole body sits in one try). -/
def fetch_newsdata (resp : Except String (Except String (List NewsRow))) : List String :=
  match resp with
  | .error _ => []
  | .ok (.error _) => []
  | .ok (.ok rs) =>
      (rs.filter fun r => truthyOpt r.title).map
        fun r => pyStr r.title ++ " - " ++ pyStr r.description

/-- streamlit.py lines 99-109, `fetch_tavily` (whole body in one try). -/
def fetch_tavily (resp : Except String (List (Option String))) : List String :=
  match resp with
  | .error _ => []
  | .ok rs => rs.map fun o => o.getD ""

/-- streamlit.py line 116: `list(set(tavily_event + newsdata_articles))`,
modelled as duplicate erasure over the concatenation. -/
def all_headlines (tavily_event newsdata_articles : List String) : List String :=
  (tavily_event ++ newsdata_articles).eraseDups

/-- streamlit.py lines 112-122, `get_new_headlines`: returns `none` when
no merged headline matches a keyword, and otherwise invokes the chain on
the newline-join of ALL merged headlines. -/
def get_new_headlines (chain : String → String)
    (newsResp : Except String (Except String (List NewsRow)))
    (tavilyResp : Except String (List (Option String))) : Option String :=
  let merged := all_headlines (fetch_tavily tavilyResp) (fetch_newsdata newsResp)
  if (filter_active_events merged).isEmpty then none
  else some (chain (String.intercalate "\n" merged))

/-- The four styling outcomes of the report renderer in streamlit.py
lines 134-143: the three coloured boxes and the plain-text fallback. -/
inductive Style where
  | high
  | medium
  | low
  | plainText
deriving DecidableEq

/-- streamlit.py lines 136-143: a block is styled by testing, in order,
for the substrings "HIGH", "MEDIUM", "LOW". -/
def styleBlock (block : String) : Style :=
  if strContains block "HIGH" then Style.high
  else if strContains block "MEDIUM" then Style.medium
  else if strContains block "LOW" then Style.low
  else Style.plainText

/-- streamlit.py line 135: the report is split on blank lines and each
block is styled independently. -/
def renderReport (report : String) : List (String × Style) :=
  (report.splitOn "\n\n").map fun b => (b, styleBlock b)

end StreamlitMon

namespace StreamlitApp

/-- streamlit_app.py lines 202-221, `fetch_newsdata` (same row shape as
the other variants; the whole body, `response.json()` included, sits in
one try). -/
def fetch_newsdata (resp : Except String (Except String (List NewsRow))) : List String :=
  match resp with
  | .error _ => []
  | .ok (.error _) => []
  | .ok (.ok rs) =>
      (rs.filter fun r => truthyOpt r.title).map
        fun r => pyStr r.title ++ " - " ++ pyStr r.description

/-- streamlit_app.py lines 224-235, `fetch_tavily` (whole body in one
try). -/
def fetch_tavily (resp : Except String (List (Option String))) : List String :=
  match resp with
  | .error _ => []
  | .ok rs => rs.map fun o => o.getD ""

/-- streamlit_app.py line 273: `all_items = news_items + tavily_items` —
plain list concatenation, despite the comment above it announcing
duplicate removal. -/
def all_items (news_items tavily_items : List String) : List String :=
  news_items ++ tavily_items

/-- streamlit_app.py lines 275-282: the disruption text fed to the
disaster chain is the blank-line join of `all_items` (NewsData rows
first, then Tavily rows); with no items the fixed marker is used. -/
def disaster_output (chain : DisasterIn → String) (country_name date_display : String)
    (news_items tavily_items : List String) : String :=
  let items := all_items news_items tavily_items
  if items.isEmpty then "NO_DISASTER_OR_MAJOR_EVENTS"
  else chain ⟨String.intercalate "\n\n" items, country_name, date_display⟩

/-- Modelled from the call structure of the run button handler in
streamlit_app.py lines 241-291: on the past-or-present path it calls
`fetch_newsdata` (line 269) and `fetch_tavily` (line 270); holidays come
from the holiday LLM alone (no holiday API request), and the file
contains no GDACS access. On the future path no data source is
contacted. -/
def sourcesQueried (future : Bool) : List Source :=
  if future then []
  else [Source.newsdata, Source.tavily]

end StreamlitApp

/-- A concrete controller environment with constant chains: the holiday
chain always answers "H", the disaster chain "D", the summary chain "S",
and every HTTP source is down. -/
def env0 : Controller.Env where
  holiday_chain := fun _ => "H"
  disaster_chain := fun _ => "D"
  summary_chain := fun _ => "S"
  dateStr := fun _ => ""
  holidaysResp := .error "down"
  gdacsResp := .error "down"
  newsResp := .error "down"

/-- A concrete GDACS RSS item whose title and country mention Testland
and whose from-date parses to day 3. -/
def it0 : Controller.RssItem :=
  ⟨"Flood in Testland", "Testland", "raw", some 3, "red", "fl", "", ""⟩

/-- C1 (counterexample). The claim says every error while contacting or
parsing an external source is caught and the fetch returns the empty
list. At a concrete input where the GDACS HTTP request succeeds but the
RSS body does not parse, controller.py's `fetch_gdacs_rss` propagates the
parse error instead of returning `Except.ok []`. -/
theorem c1_gdacs_parse_error_escapes :
    Controller.fetch_gdacs_rss ["x"] 0 0 (Except.ok (Except.error "malformed")) =
      Except.error "malformed" ∧
    Controller.fetch_gdacs_rss ["x"] 0 0 (Except.ok (Except.error "malformed")) ≠
      Except.ok [] := by
  refine ⟨rfl, fun h => ?_⟩
  exact Except.noConfusion h

/-- C1 (amended). Contact failures are caught by every fetch operation
and degrade to the empty list, and parse failures are caught as well in
`fetch_holidays` and in all the sa_monitor / streamlit / streamlit_app
fetchers; but in controller.py's `fetch_gdacs_rss` and `fetch_newsdata`
a parse failure of the received body escapes to the caller. -/
theorem c1_error_handling_amended (msg : String) (terms : List String) (fd td : Int) :
    Controller.fetch_gdacs_rss terms fd td (Except.error msg) = Except.ok [] ∧
    Controller.fetch_newsdata (Except.error msg) = Except.ok [] ∧
    Controller.fetch_holidays (Except.error msg) = [] ∧
    Controller.fetch_holidays (Except.ok (Except.error msg)) = [] ∧
    SaMonitor.fetch_newsdata (Except.error msg) = [] ∧
    SaMonitor.fetch_newsdata (Except.ok (Except.error msg)) = [] ∧
    SaMonitor.fetch_tavily (Except.error msg) = [] ∧
    StreamlitMon.fetch_newsdata (Except.error msg) = [] ∧
    StreamlitMon.fetch_newsdata (Except.ok (Except.error msg)) = [] ∧
    StreamlitMon.fetch_tavily (Except.error msg) = [] ∧
    StreamlitApp.fetch_newsdata (Except.error msg) = [] ∧
    StreamlitApp.fetch_newsdata (Except.ok (Except.error msg)) = [] ∧
    StreamlitApp.fetch_tavily (Except.error msg) = [] ∧
    Controller.fetch_gdacs_rss terms fd td (Except.ok (Except.error msg)) = Except.error msg ∧
    Controller.fetch_newsdata (Except.ok (Except.error msg)) = Except.error msg :=
  ⟨rfl, rfl, rfl, rfl, rfl, rfl, rfl, rfl, rfl, rfl, rfl, rfl, rfl, rfl, rfl⟩

/-- C2 (code bug). The comment above streamlit_app.py line 273 announces
"COMBINE AND REMOVE DUPLICATES", and the spec describes the merge as a
set-union, but `all_items = news_items + tavily_items` is plain
concatenation: when the same string is fetched by both sources it occurs
twice in the merged list. -/
theorem c2_app_merge_keeps_duplicates :
    StreamlitApp.all_items ["a"] ["a"] = ["a", "a"] ∧
    (StreamlitApp.all_items ["a"] ["a"]).count "a" = 2 ∧
    ¬ (StreamlitApp.all_items ["a"] ["a"]).Nodup ∧
    (SaMonitor.all_headlines ["a"] ["a"]).Nodup ∧
    (StreamlitMon.all_headlines ["a"] ["a"]).Nodup := by
  refine ⟨rfl, rfl, ?_, ?_, ?_⟩ <;> decide

/-- C8. `expand` widens a single-day interval by seven days on each side
and leaves a genuine range unchanged; hence the returned interval always
contains the input interval, and an ordered input yields an ordered
output. -/
theorem c8_expand_spec (f t : Int) :
    (f = t → Controller.expand f t = (f - 7, t + 7)) ∧
    (f ≠ t → Controller.expand f t = (f, t)) ∧
    (Controller.expand f t).1 ≤ f ∧ t ≤ (Controller.expand f t).2 ∧
    (f ≤ t → (Controller.expand f t).1 ≤ (Controller.expand f t).2) := by
  by_cases h : f = t
  · refine ⟨fun _ => by simp [Controller.expand, h], fun hne => absurd h hne, ?_, ?_, fun _ => ?_⟩
    · simp [Controller.expand, h]
    · simp [Controller.expand, h]
    · simp [Controller.expand, h]
      omega
  · refine ⟨fun he => absurd he h, fun _ => by simp [Controller.expand, h], ?_, ?_, fun hle => ?_⟩
    · simp [Controller.expand, h]
    · simp [Controller.expand, h]
    · simp [Controller.expand, h]
      exact hle

/-- C8 witness: the theorem applied at the single-day input (5, 5). -/
theorem c8_expand_spec_witness :
    Controller.expand 5 5 = (-2, 12) ∧ (Controller.expand 5 5).1 ≤ (Controller.expand 5 5).2 :=
  ⟨(c8_expand_spec 5 5).1 rfl, (c8_expand_spec 5 5).2.2.2.2 (by decide)⟩

/-- C6 (counterexample). The claim says a past-or-present run queries
all four external sources; the controller's run queries the holiday API,
GDACS and NewsData but never Tavily. -/
theorem c6_controller_never_queries_tavily :
    Source.tavily ∉ Controller.sourcesQueried false ∧
    Controller.sourcesQueried false = [Source.nagerHolidays, Source.gdacsRss, Source.newsdata] :=
  ⟨by decide, rfl⟩

/-- C6 (amended). On a past-or-present run the controller queries the
holiday API, GDACS and NewsData (not Tavily), while the streamlit_app
run queries NewsData and Tavily (neither GDACS nor the holiday API); no
single run path contacts all four sources. -/
theorem c6_sources_queried_amended :
    Controller.sourcesQueried false = [Source.nagerHolidays, Source.gdacsRss, Source.newsdata] ∧
    Controller.sourcesQueried true = [Source.nagerHolidays] ∧
    StreamlitApp.sourcesQueried false = [Source.newsdata, Source.tavily] ∧
    Source.tavily ∉ Controller.sourcesQueried false ∧
    Source.gdacsRss ∉ StreamlitApp.sourcesQueried false ∧
    Source.nagerHolidays ∉ StreamlitApp.sourcesQueried false := by
  refine ⟨rfl, rfl, rfl, ?_, ?_, ?_⟩ <;> decide

/-- C7. The renderer in streamlit.py styles each block of the LLM report
solely from the substrings "HIGH", "MEDIUM", "LOW", in that priority
order: a block containing "HIGH" is styled high regardless of the other
labels, "MEDIUM" applies only in the absence of "HIGH", "LOW" only in
the absence of both, and anything else renders as plain text. -/
theorem c7_severity_styling_priority (block : String) :
    (strContains block "HIGH" = true → StreamlitMon.styleBlock block = StreamlitMon.Style.high) ∧
    (StreamlitMon.styleBlock block = StreamlitMon.Style.medium ↔
      (strContains block "HIGH" = false ∧ strContains block "MEDIUM" = true)) ∧
    (StreamlitMon.styleBlock block = StreamlitMon.Style.low ↔
      (strContains block "HIGH" = false ∧ strContains block "MEDIUM" = false ∧
        strContains block "LOW" = true)) ∧
    (StreamlitMon.styleBlock block = StreamlitMon.Style.plainText ↔
      (strContains block "HIGH" = false ∧ strContains block "MEDIUM" = false ∧
        strContains block "LOW" = false)) := by
  unfold StreamlitMon.styleBlock
  cases h1 : strContains block "HIGH" <;> cases h2 : strContains block "MEDIUM" <;>
    cases h3 : strContains block "LOW" <;> simp [h1, h2, h3]

/-- C7 witness: a block carrying all three labels is styled high. -/
theorem c7_severity_styling_priority_witness :
    StreamlitMon.styleBlock "HIGH MEDIUM LOW" = StreamlitMon.Style.high :=
  (c7_severity_styling_priority "HIGH MEDIUM LOW").1 (by decide)

/-- C3 (counterexample). The claim says every invocation of
`run_logistics_check` returns text produced from both the holiday output
and the disruption output. On a future-period run with constant chains
(holiday chain "H", summary chain "S"), the call returns the stripped
holiday output "H" directly: the summary chain — the only stage that
combines holidays with disruptions — is bypassed. -/
theorem c3_future_period_ignores_disruptions :
    Controller.run_logistics_check env0 "X" "x" "2026-01-01" "Jan" true 1 0 0 0 0 [] =
      Except.ok "H" ∧
    env0.summary_chain ⟨"q", "q", "q"⟩ = "S" ∧ ("H" : String) ≠ "S" :=
  ⟨rfl, rfl, by decide⟩

/-- C3 (amended). On a future-period run `run_logistics_check` returns
the stripped holiday-chain output alone; on a past-or-present run (with
both disruption fetches succeeding) it returns the stripped summary of
the holiday output together with the disruption output. -/
theorem c3_alert_composition_amended (env : Controller.Env)
    (cn cc fds dd : String) (b : Bool) (sd st ed bd today : Int)
    (terms : List String) (g n : List String) :
    ((if b then sd else st) > today →
      Controller.run_logistics_check env cn cc fds dd b sd st ed bd today terms =
        Except.ok (pyStrip (env.holiday_chain
          ⟨cn, pyUpper cc, fds, env.dateStr (bd + 7),
           pyOrStr (String.intercalate "\n" (Controller.fetch_holidays env.holidaysResp))
             "NO_PUBLIC_HOLIDAYS"⟩))) ∧
    (¬ (if b then sd else st) > today →
      Controller.fetch_gdacs_rss terms (if b then sd else st) (if b then sd else ed)
          env.gdacsResp = Except.ok g →
      Controller.fetch_newsdata env.newsResp = Except.ok n →
      Controller.run_logistics_check env cn cc fds dd b sd st ed bd today terms =
        Except.ok (pyStrip (env.summary_chain
          ⟨"=== HOLIDAYS ===\n" ++ env.holiday_chain
              ⟨cn, pyUpper cc, fds, env.dateStr (bd + 7),
               pyOrStr (String.intercalate "\n" (Controller.fetch_holidays env.holidaysResp))
                 "NO_PUBLIC_HOLIDAYS"⟩ ++
            "\n\n=== DISRUPTIONS ===\n" ++
            Controller.disaster_output env.disaster_chain cn dd g n, cn, dd⟩))) := by
  constructor
  · intro h
    simp only [Controller.run_logistics_check]
    rw [if_pos h]
  · intro h hg hn
    simp only [Controller.run_logistics_check]
    rw [if_neg h, hg, hn]

/-- C3 witness: the amended theorem applied at a concrete future-period
input over `env0`. -/
theorem c3_alert_composition_amended_witness :
    Controller.run_logistics_check env0 "X" "x" "f" "d" true 1 0 0 0 0 [] = Except.ok "H" := by
  have h := (c3_alert_composition_amended env0 "X" "x" "f" "d" true 1 0 0 0 0 [] [] []).1
    (by decide)
  exact h.trans (congrArg Except.ok (by decide))

/-- C4 (code bug). The claim (and the module's own design: `gather_chain`
is defined for exactly this call) says a run with a non-empty merged
headline list invokes the LLM chain and prints its report. But line 142
of sa_monitor.py refers to an unbound name `chain`, so the call raises
`NameError`, the except on line 144 catches it, and the console shows an
"Analysis failed" line instead of any LLM output — here evaluated on a
run whose merged list is the single headline "Port strike ongoing -
desc". -/
theorem c4_scheduler_chain_name_error :
    SaMonitor.get_new_headlines
        (Except.ok (Except.ok [⟨some "Port strike ongoing", some "desc"⟩]))
        (Except.error "down") "Date: D" =
      ["==============================", "ENTERPRISE LOGISTICS ALERT",
       "Region: South Africa", "Date: D", "==============================",
       "Analysis failed: NameError: name chain is not defined"] ∧
    SaMonitor.chainBinding = none ∧
    SaMonitor.all_headlines
        (SaMonitor.fetch_tavily (Except.error "down"))
        (SaMonitor.fetch_newsdata
          (Except.ok (Except.ok [⟨some "Port strike ongoing", some "desc"⟩]))) ≠ [] :=
  ⟨rfl, rfl, by decide⟩

/-- C5 (counterexample). The claim says the disruption text handed to
the disaster prompt is the blank-line join of the GDACS events followed
by the NewsData events. In streamlit_app.py the text also carries the
Tavily results: with NewsData ["N"] and Tavily ["T"] the chain receives
"N\n\nT", not the join "N" of the (nonexistent, hence empty) GDACS list
with the NewsData list. -/
theorem c5_app_events_include_tavily :
    StreamlitApp.disaster_output (fun d => d.events) "c" "d" ["N"] ["T"] = "N\n\nT" ∧
    String.intercalate "\n\n" (([] : List String) ++ ["N"]) = "N" ∧
    ("N\n\nT" : String) ≠ "N" :=
  ⟨rfl, rfl, by decide⟩

/-- C5 (amended). Whenever at least one event is fetched, the text
handed to the disaster chain is the blank-line join of all fetched event
strings in fetch order: GDACS then NewsData in the controller, NewsData
then Tavily in streamlit_app. -/
theorem c5_events_text_amended (chain : DisasterIn → String) (cn dd : String)
    (g n news tavily : List String) :
    (g ++ n ≠ [] →
      Controller.disaster_output chain cn dd g n =
        chain ⟨String.intercalate "\n\n" (g ++ n), cn, dd⟩) ∧
    (news ++ tavily ≠ [] →
      StreamlitApp.disaster_output chain cn dd news tavily =
        chain ⟨String.intercalate "\n\n" (news ++ tavily), cn, dd⟩) := by
  constructor
  · intro h
    simp only [Controller.disaster_output]
    rw [if_neg (by simpa [List.isEmpty_iff] using h)]
  · intro h
    simp only [StreamlitApp.disaster_output, StreamlitApp.all_items]
    rw [if_neg (by simpa [List.isEmpty_iff] using h)]

/-- C5 witness: the amended theorem applied to the list pairs
(["G"], ["N"]) and (["N"], ["T"]). -/
theorem c5_events_text_amended_witness :
    Controller.disaster_output (fun d => d.events) "c" "d" ["G"] ["N"] = "G\n\nN" ∧
    StreamlitApp.disaster_output (fun d => d.events) "c" "d" ["N"] ["T"] = "N\n\nT" := by
  have h := c5_events_text_amended (fun d => d.events) "c" "d" ["G"] ["N"] ["N"] ["T"]
  exact ⟨(h.1 (by decide)).trans (by decide), (h.2 (by decide)).trans (by decide)⟩

/-- C9. Every event string returned by a successful `fetch_gdacs_rss`
run originates from an RSS item that matches the country terms and
whose from-date, when it parses, lies within the expanded query
interval; the string is exactly the rendering of that item. -/
theorem c9_gdacs_events_provenance (terms : List String) (fd td : Int)
    (items : List Controller.RssItem) (evs : List String) (e : String)
    (hf : Controller.fetch_gdacs_rss terms fd td (Except.ok (Except.ok items)) = Except.ok evs)
    (he : e ∈ evs) :
    ∃ it, it ∈ items ∧ Controller.countryMatch terms it = true ∧
      (∀ d, it.fromdateParsed = some d →
        (Controller.expand fd td).1 ≤ d ∧ d ≤ (Controller.expand fd td).2) ∧
      e = Controller.renderGdacs it := by
  simp only [Controller.fetch_gdacs_rss] at hf
  have hevs : evs = (items.filter fun it =>
      Controller.countryMatch terms it &&
        Controller.dateOk (Controller.expand fd td).1 (Controller.expand fd td).2 it).map
      Controller.renderGdacs := by
    injection hf with hf
    exact hf.symm
  subst hevs
  obtain ⟨it, hit, hre⟩ := List.mem_map.mp he
  obtain ⟨hmem, hp⟩ := List.mem_filter.mp hit
  rw [Bool.and_eq_true] at hp
  obtain ⟨hcm, hdo⟩ := hp
  refine ⟨it, hmem, hcm, fun d hd => ?_, hre.symm⟩
  unfold Controller.dateOk at hdo
  rw [hd] at hdo
  exact of_decide_eq_true hdo

/-- C9 witness: the theorem applied to a single matching item with
from-date 3 inside the expanded interval [-7, 7]. -/
theorem c9_gdacs_events_provenance_witness :
    ∃ it, it ∈ [it0] ∧ Controller.countryMatch ["testland"] it = true ∧
      (∀ d, it.fromdateParsed = some d →
        (Controller.expand 0 0).1 ≤ d ∧ d ≤ (Controller.expand 0 0).2) ∧
      Controller.renderGdacs it0 = Controller.renderGdacs it :=
  c9_gdacs_events_provenance ["testland"] 0 0 [it0]
    (([it0].filter fun it => Controller.countryMatch ["testland"] it &&
        Controller.dateOk (Controller.expand 0 0).1 (Controller.expand 0 0).2 it).map
      Controller.renderGdacs)
    (Controller.renderGdacs it0) rfl (by decide)

/-- C10. The Streamlit monitor returns `none` exactly when no merged,
deduplicated headline contains an active keyword case-insensitively;
when some headline matches, the chain is invoked on the newline-join of
ALL merged headlines, the non-matching ones included. -/
theorem c10_monitor_headlines_gate (chain : String → String)
    (newsResp : Except String (Except String (List NewsRow)))
    (tavilyResp : Except String (List (Option String))) :
    (StreamlitMon.get_new_headlines chain newsResp tavilyResp = none ↔
      ∀ e ∈ StreamlitMon.all_headlines (StreamlitMon.fetch_tavily tavilyResp)
          (StreamlitMon.fetch_newsdata newsResp), StreamlitMon.matchesActive e = false) ∧
    ((∃ e ∈ StreamlitMon.all_headlines (StreamlitMon.fetch_tavily tavilyResp)
          (StreamlitMon.fetch_newsdata newsResp), StreamlitMon.matchesActive e = true) →
      StreamlitMon.get_new_headlines chain newsResp tavilyResp =
        some (chain (String.intercalate "\n"
          (StreamlitMon.all_headlines (StreamlitMon.fetch_tavily tavilyResp)
            (StreamlitMon.fetch_newsdata newsResp))))) := by
  by_cases hc : (StreamlitMon.all_headlines (StreamlitMon.fetch_tavily tavilyResp)
      (StreamlitMon.fetch_newsdata newsResp)).filter StreamlitMon.matchesActive = []
  · have hP : ∀ e ∈ StreamlitMon.all_headlines (StreamlitMon.fetch_tavily tavilyResp)
        (StreamlitMon.fetch_newsdata newsResp), StreamlitMon.matchesActive e = false := by
      intro e he
      have := List.filter_eq_nil_iff.mp hc e he
      simpa using this
    have hres : StreamlitMon.get_new_headlines chain newsResp tavilyResp = none := by
      simp only [StreamlitMon.get_new_headlines, StreamlitMon.filter_active_events]
      rw [if_pos (by simp [hc])]
    refine ⟨⟨fun _ => hP, fun _ => hres⟩, fun hex => ?_⟩
    obtain ⟨e, he, hme⟩ := hex
    rw [hP e he] at hme
    exact absurd hme (by simp)
  · have hres : StreamlitMon.get_new_headlines chain newsResp tavilyResp =
        some (chain (String.intercalate "\n"
          (StreamlitMon.all_headlines (StreamlitMon.fetch_tavily tavilyResp)
            (StreamlitMon.fetch_newsdata newsResp)))) := by
      simp only [StreamlitMon.get_new_headlines, StreamlitMon.filter_active_events]
      rw [if_neg (by simp [List.isEmpty_iff, hc])]
    refine ⟨⟨fun hnone => ?_, fun hP => ?_⟩, fun _ => hres⟩
    · rw [hres] at hnone
      exact absurd hnone (by simp)
    · exact absurd (List.filter_eq_nil_iff.mpr fun e he => by simp [hP e he]) hc

/-- C10 witness: with a single Tavily headline matching the keyword
"port closed" and the identity chain, the monitor returns that
headline. -/
theorem c10_monitor_headlines_gate_witness :
    StreamlitMon.get_new_headlines (fun s => s) (Except.error "down")
        (Except.ok [some "port closed today"]) = some "port closed today" := by
  have h := (c10_monitor_headlines_gate (fun s => s) (Except.error "down")
      (Except.ok [some "port closed today"])).2 ⟨"port closed today", by decide, by decide⟩
  exact h.trans (by decide)
